import Mathlib

/-!
Verification of the Conduit process supervisor (`core/conduit.go` and the
`cmd/conduit` entry point) against its natural-language specification.

The development shallowly embeds the final revision of `core/conduit.go`:

* `lndLogMatch` is a hand-compiled, deterministic matcher for the anchored
  Go regular expression `lndLogRegex`
  (`^[0-9]{4}-[0-9]{2}-[0-9]{2}\s[0-9]{2}:[0-9]{2}:[0-9]{2}.[0-9]{3}\s\[(INF|TRC|DBG|ERR|WRN|CRT)\]\s([A-Z]{4}):\s(.+)`);
  the pattern is anchored at the start and every element except the trailing
  greedy `.+` has fixed width, and the six level alternatives start with six
  distinct letters, so the regex is deterministic and the compilation to a
  sequential matcher is exact.
* `forwardLine` is the body of one iteration of `parseLndLog`'s drain loop
  (regex match, then the `switch` on the captured level code, forwarding one
  structured record to the zerolog sink).
* `parseLndLogRun` is the drain loop itself (`for scan.Scan() { select ... }`),
  with the shutdown channel modelled as a predicate on iteration indices.
* `startLndModel` / `mainModel` / `processExitCode` model the sequential
  control flow of `startLnd`, `core.Main` and `cmd/conduit`'s `main`.
* `WaitGroup` and the `MainJoinState` definitions model Go's pass-by-value
  semantics for the `sync.WaitGroup` that `Main` hands to `startLnd`.
-/

namespace Conduit

/-- The canonical severity vocabulary of the zerolog sink. -/
inductive Severity
  | trace
  | debug
  | info
  | warn
  | error
  | fatal
  deriving DecidableEq, Repr

/-- One structured record handed to the zerolog sink.  Every record produced
by `parseLndLog` carries the constant context field `process = "LND"`, which we
omit; `subsystem` is `none` exactly for the unknown-level diagnostic of the
`switch`'s `default` branch, which attaches no subsystem field. -/
structure SinkEvent where
  sev : Severity
  subsystem : Option String
  msg : String
  deriving DecidableEq, Repr

/-- Character class `[0-9]` of the Go regular expression. -/
def reDigit (c : Char) : Bool := '0' ≤ c && c ≤ '9'

/-- Character class `\s` of Go's RE2 (Perl class): tab, newline, form feed,
carriage return or space. -/
def reSpace (c : Char) : Bool :=
  c = '\t' || c = '\n' || c = Char.ofNat 12 || c = '\r' || c = ' '

/-- The unescaped `.` of the Go regular expression: any character other than
newline. -/
def reDot (c : Char) : Bool := c ≠ '\n'

/-- Character class `[A-Z]` of the Go regular expression. -/
def reUpper (c : Char) : Bool := 'A' ≤ c && c ≤ 'Z'

/-- The single-character class matching exactly the literal character `c`. -/
def reLitP (c : Char) : Char → Bool := fun d => d = c

/-- Consume one character per class in `ps`, in order: the sequential
compilation of a concatenation of single-character regex elements. -/
def eatSeq : List (Char → Bool) → List Char → Option (List Char)
  | [], cs => some cs
  | _ :: _, [] => none
  | p :: ps, c :: cs => if p c then eatSeq ps cs else none

/-- Consume the literal string given as a character list. -/
def eatChars : List Char → List Char → Option (List Char)
  | [], cs => some cs
  | _ :: _, [] => none
  | p :: ps, c :: cs => if c = p then eatChars ps cs else none

/-- The capturing alternation `(INF|TRC|DBG|ERR|WRN|CRT)`: try the
alternatives left to right and return the one that matched.  The six
alternatives begin with six distinct letters, so at most one can match and
the left-to-right order is irrelevant. -/
def eatAlts : List String → List Char → Option (String × List Char)
  | [], _ => none
  | a :: as, cs =>
    match eatChars a.data cs with
    | some rest => some (a, rest)
    | none => eatAlts as cs

/-- Consume and capture exactly `n` characters satisfying `p`
(the capturing group `([A-Z]{4})`). -/
def takeClassN (p : Char → Bool) : Nat → List Char → Option (List Char × List Char)
  | 0, cs => some ([], cs)
  | _ + 1, [] => none
  | n + 1, c :: cs =>
    if p c then (takeClassN p n cs).map (fun t => (c :: t.1, t.2)) else none

/-- The trailing capturing group `(.+)`: greedy, so it captures the longest
run of non-newline characters, and the match fails if that run is empty.
(There is no `$` anchor, so a match need not reach the end of the input.) -/
def eatText (cs : List Char) : Option String :=
  let t := cs.takeWhile (fun c => c ≠ '\n')
  if t.isEmpty then none else some (String.mk t)

/-- The six level-code alternatives, in the source order of `lndLogRegex`. -/
def lndLevelCodes : List String := ["INF", "TRC", "DBG", "ERR", "WRN", "CRT"]

/-- The fixed-width part of `lndLogRegex` before the level group, one
single-character element per entry:
`[0-9]{4}-[0-9]{2}-[0-9]{2}\s[0-9]{2}:[0-9]{2}:[0-9]{2}.[0-9]{3}\s\[`. -/
def lndPrefixPat : List (Char → Bool) :=
  [reDigit, reDigit, reDigit, reDigit, reLitP '-', reDigit, reDigit,
   reLitP '-', reDigit, reDigit, reSpace, reDigit, reDigit, reLitP ':',
   reDigit, reDigit, reLitP ':', reDigit, reDigit, reDot, reDigit, reDigit,
   reDigit, reSpace, reLitP '[']

/-- `re.FindStringSubmatch` for the anchored regular expression
`lndLogRegex`, returning the three captured groups
(level code, subsystem, text) when the line matches and `none` otherwise.
The Go call site reads `captures[1]`, `captures[2]`, `captures[3]` after
checking `len(captures) != 0`. -/
def lndLogMatch (line : String) : Option (String × String × String) :=
  match eatSeq lndPrefixPat line.data with
  | none => none
  | some cs =>
    match eatAlts lndLevelCodes cs with
    | none => none
    | some (lvl, cs) =>
      match eatSeq [reLitP ']', reSpace] cs with
      | none => none
      | some cs =>
        match takeClassN reUpper 4 cs with
        | none => none
        | some (sub, cs) =>
          match eatSeq [reLitP ':', reSpace] cs with
          | none => none
          | some cs => (eatText cs).map (fun txt => (lvl, String.mk sub, txt))

/-- The diagnostic record produced by the `default` branch of the `switch`
in `parseLndLog`: `logger.Error().Msg(fmt.Sprintf("Unkown LND log level: %v", logLvl))`. -/
def unknownLevelEvent (logLvl : String) : SinkEvent :=
  ⟨Severity.error, none, "Unkown LND log level: " ++ logLvl⟩

/-- One iteration of the drain-loop body of `parseLndLog` on one scanned
line: match against the regex (a non-match hits the `len(captures) == 0`
guard and `continue`s), then dispatch the `switch` on the captured level
code.  The second component records whether the iteration terminates the
whole process: `logger.Fatal().Msg(...)` is zerolog's `Fatal` level, which
writes the record and then calls `os.Exit(1)`; all other levels just write. -/
def forwardLine (line : String) : List SinkEvent × Bool :=
  match lndLogMatch line with
  | none => ([], false)
  | some (logLvl, subName, text) =>
    match logLvl with
    | "INF" => ([⟨Severity.info, some subName, text⟩], false)
    | "TRC" => ([⟨Severity.trace, some subName, text⟩], false)
    | "DBG" => ([⟨Severity.debug, some subName, text⟩], false)
    | "ERR" => ([⟨Severity.error, some subName, text⟩], false)
    | "WRN" => ([⟨Severity.warn, some subName, text⟩], false)
    | "CRT" => ([⟨Severity.fatal, some subName, text⟩], true)
    | _ => ([unknownLevelEvent logLvl], false)

/-- The drain loop of `parseLndLog`: `for scan.Scan() { select { case
<-shutdownChan: return; default: ... } }`.

The scanned lines of the child's stdout are `lines` (each without its
trailing newline, as `bufio.Scanner` strips it).  The shutdown channel is
modelled by `fired i`, true when the channel is closed at the time of
iteration `i`'s `select`; a Go `select` with one channel case and a
`default` takes the channel case whenever it is ready, so a fired channel
deterministically ends the loop.  The result is the list of records
forwarded to the zerolog sink, in order; a `Fatal`-level write terminates
the whole process (`os.Exit(1)` inside zerolog), modelled by returning
without touching the remaining lines. -/
def parseLndLogRun (fired : Nat → Bool) : Nat → List String → List SinkEvent
  | _, [] => []
  | i, line :: rest =>
    if fired i then []
    else if (forwardLine line).2 then (forwardLine line).1
    else (forwardLine line).1 ++ parseLndLogRun fired (i + 1) rest

/-- The number of `scan.Scan()` calls the drain loop performs: one per
consumed line, one more for the call that observes end of stream, and none
after the iteration whose `select` observes the fired shutdown channel or
after a `Fatal`-level write. -/
def drainReads (fired : Nat → Bool) : Nat → List String → Nat
  | _, [] => 1
  | i, line :: rest =>
    if fired i then 1
    else if (forwardLine line).2 then 1
    else 1 + drainReads fired (i + 1) rest

/-- The level-code table exactly as the specification states it:
TRC→Trace, DBG→Debug, INF→Info, WRN→Warn, ERR→Error, CRT→Fatal,
case-sensitive, everything else unrecognized. -/
def specLevelTable : String → Option Severity
  | "TRC" => some Severity.trace
  | "DBG" => some Severity.debug
  | "INF" => some Severity.info
  | "WRN" => some Severity.warn
  | "ERR" => some Severity.error
  | "CRT" => some Severity.fatal
  | _ => none

/-- The errors `startLnd` can return: the two package constants
`ErrLndNotFound` and `ErrLndVersion` (distinct values of the constant-string
error type `errors.Error`), or an operating-system error passed through
from `cmd.StdoutPipe()`, `cmd.Start()` or `cmd.Wait()`. -/
inductive LndErr
  | notFound
  | versionDone
  | os : String → LndErr
  deriving DecidableEq, Repr

/-- The environment a run of `startLnd` executes in: whether
`exec.LookPath("lnd")` succeeds, which of the process-management calls of
each path fail (`none` = success), the lines the child writes on its stdout
in version mode, and whether an explicit shutdown request preceded the
child's exit (world state that the code receives via `shutdownInterceptor`
but never consults in `startLnd`). -/
structure LndEnv where
  lndOnPath : Bool
  versionPipeErr : Option String
  versionStartErr : Option String
  versionWaitErr : Option String
  versionChildOut : List String
  runPipeErr : Option String
  runStartErr : Option String
  runWaitErr : Option String
  shutdownRequestedBeforeExit : Bool
  deriving DecidableEq, Repr

/-- What a run of `startLnd` did: the lines echoed to standard output by
`fmt.Println`, the number of `cmd.Start()` invocations (spawn attempts),
whether the `parseLndLog` drain goroutine was launched, and the returned
error (`none` = nil). -/
structure LndResult where
  echoed : List String
  spawns : Nat
  drainStarted : Bool
  err : Option LndErr
  deriving DecidableEq, Repr

/-- Sequential model of `startLnd` (the version-query branch and the
long-running branch).  Statement order follows the source:
`exec.LookPath` first; in version mode `StdoutPipe`, the first-line echo
goroutine, `Start`, `Wait`, then `return nil, ErrLndVersion`; in the
long-running mode `StdoutPipe`, `wg.Add(1)`, `go parseLndLog(...)`,
`Start`, then immediately `Wait`.  The echo goroutine runs
`for scanner.Scan() { fmt.Println(scanner.Text()); break }`, printing only
the first line the child emits. -/
def startLnd (lndShowVersion : Bool) (env : LndEnv) : LndResult :=
  if env.lndOnPath = false then
    ⟨[], 0, false, some LndErr.notFound⟩
  else if lndShowVersion then
    match env.versionPipeErr with
    | some e => ⟨[], 0, false, some (LndErr.os e)⟩
    | none =>
      match env.versionStartErr with
      | some e => ⟨[], 1, false, some (LndErr.os e)⟩
      | none =>
        let echoed := match env.versionChildOut with
          | [] => []
          | l :: _ => [l]
        match env.versionWaitErr with
        | some e => ⟨echoed, 1, false, some (LndErr.os e)⟩
        | none => ⟨echoed, 1, false, some LndErr.versionDone⟩
  else
    match env.runPipeErr with
    | some e => ⟨[], 0, false, some (LndErr.os e)⟩
    | none =>
      match env.runStartErr with
      | some e => ⟨[], 1, true, some (LndErr.os e)⟩
      | none =>
        match env.runWaitErr with
        | some e => ⟨[], 1, true, some (LndErr.os e)⟩
        | none => ⟨[], 1, true, none⟩

/-- Sequential model of `core.Main`'s error handling: `startLnd`'s error is
compared against `ErrLndVersion`; any other non-nil error is wrapped with
"could not start lnd", logged fatally and returned, while `ErrLndVersion`
makes `Main` return nil.  On a nil error `Main` blocks on the shutdown
channel, calls `wg.Wait()` and returns nil. -/
def mainResult (lndShowVersion : Bool) (env : LndEnv) : Option LndErr :=
  match (startLnd lndShowVersion env).err with
  | some LndErr.versionDone => none
  | some e => some e
  | none => none

/-- The process exit status as established by `cmd/conduit`'s `main`:
`os.Exit(1)` when `core.Main` returns a non-nil error, normal exit 0
otherwise.  (The fatal zerolog writes inside `Main` and `startLnd` also call
`os.Exit(1)`, so the observable status is 1 on every error path either
way.) -/
def processExitCode (lndShowVersion : Bool) (env : LndEnv) : Nat :=
  match mainResult lndShowVersion env with
  | none => 0
  | some _ => 1

/-- A Go `sync.WaitGroup`, reduced to its counter.  `Add` and `Done` act on
the receiver value; copying the struct copies the counter. -/
structure WaitGroup where
  counter : Nat
  deriving DecidableEq, Repr

/-- `wg.Add(n)`. -/
def wgAdd (wg : WaitGroup) (n : Nat) : WaitGroup := ⟨wg.counter + n⟩

/-- `wg.Wait()` returns without blocking exactly when the counter is zero. -/
def wgWaitReturnsNow (wg : WaitGroup) : Bool := wg.counter == 0

/-- The `sync.WaitGroup` values involved in `Main`'s attempt to join the
drain goroutine, together with whether `parseLndLog` has returned.  `Main`
declares `var wg sync.WaitGroup` and passes `wg` by value to `startLnd`
(parameter `wg sync.WaitGroup`), which passes it by value again to
`parseLndLog`; each callee therefore operates on its own copy of the
counter. -/
structure MainJoinState where
  mainWg : WaitGroup
  startLndWg : WaitGroup
  drainDone : Bool
  deriving DecidableEq, Repr

/-- The state when `Main` has declared `var wg sync.WaitGroup` and called
`startLnd(cfg, wg, ...)`: both counters are zero and the drain goroutine
has not run. -/
def mainJoinInit : MainJoinState := ⟨⟨0⟩, ⟨0⟩, false⟩

/-- The `wg.Add(1)` executed inside `startLnd` before
`go parseLndLog(scanner, log, re, shutdownChan, wg)`: because `wg` arrived
by value, the increment lands on `startLnd`'s copy and `Main`'s counter is
untouched. -/
def afterStartLndAdd (s : MainJoinState) : MainJoinState :=
  { s with startLndWg := wgAdd s.startLndWg 1 }

/-- The ordered statement events of the long-running branch of `startLnd`.
`drainJoined` would be a synchronization that waits for `parseLndLog` to
stop reading; no such statement exists in `startLnd`. -/
inductive StartEvent
  | lookPath
  | stdoutPipe
  | newScanner
  | spawnDrainGoroutine
  | cmdStart
  | cmdWait
  | drainJoined
  | ret
  deriving DecidableEq, Repr

/-- The statement order of the long-running (non-version) success path of
`startLnd`, read off the source top to bottom: `exec.LookPath`,
`cmd.StdoutPipe()`, `bufio.NewScanner`, `wg.Add(1); go parseLndLog(...)`,
`cmd.Start()`, `cmd.Wait()` (which blocks until the child exits), then
`return scanner, nil`. -/
def startLndLongRunEvents : List StartEvent :=
  [StartEvent.lookPath, StartEvent.stdoutPipe, StartEvent.newScanner,
   StartEvent.spawnDrainGoroutine, StartEvent.cmdStart, StartEvent.cmdWait,
   StartEvent.ret]

/-- The concrete environment refuting claim C6: the child exits with a
non-zero status after an explicit shutdown request. -/
def c6Env : LndEnv :=
  ⟨true, none, none, none, [], none, none, some "exit status 1", true⟩

/-- A successful match of the alternation returns one of its alternatives. -/
theorem eatAlts_mem {as : List String} {cs rest : List Char} {a : String}
    (h : eatAlts as cs = some (a, rest)) : a ∈ as := by
  induction as with
  | nil => exact Option.noConfusion h
  | cons b bs ih =>
    rw [eatAlts] at h
    split at h
    · rw [Option.some_inj] at h
      rw [Prod.mk.injEq] at h
      exact h.1 ▸ List.mem_cons_self b bs
    · exact List.mem_cons_of_mem _ (ih h)

/-- The level code captured by a successful match of `lndLogRegex` is one of
the six alternatives of the level group. -/
theorem lndLogMatch_level_mem {line : String} {lvl sub txt : String}
    (h : lndLogMatch line = some (lvl, sub, txt)) : lvl ∈ lndLevelCodes := by
  unfold lndLogMatch at h
  split at h
  · exact Option.noConfusion h
  split at h
  · exact Option.noConfusion h
  rename_i lvlcs heq
  split at h
  · exact Option.noConfusion h
  split at h
  · exact Option.noConfusion h
  split at h
  · exact Option.noConfusion h
  rcases ht : eatText _ with _ | txt'
  · rw [ht] at h
    exact Option.noConfusion h
  · rw [ht] at h
    simp only [Option.map_some'] at h
    rw [Option.some_inj, Prod.mk.injEq] at h
    exact h.1 ▸ eatAlts_mem heq

/-- Claim C1: the claim states that `core.Main` synchronously waits for the
drain goroutine (`parseLndLog`) before returning.  The code violates this:
`Main` passes its `sync.WaitGroup` by value, so the `wg.Add(1)` inside
`startLnd` increments `startLnd`'s copy while `Main`'s own counter stays
zero, `Main`'s `wg.Wait()` returns at once, and `Main` can return while the
drain goroutine (`drainDone = false`) is still forwarding records. -/
theorem c1_main_wait_is_noop :
    (afterStartLndAdd mainJoinInit).drainDone = false ∧
    (afterStartLndAdd mainJoinInit).startLndWg.counter = 1 ∧
    wgWaitReturnsNow (afterStartLndAdd mainJoinInit).mainWg = true := by
  decide

/-- Claim C2: the claim states that the long-running path of `startLnd`
returns as soon as the child is spawned, with the blocking wait issued only
after the drain loop has stopped reading.  The code violates this: in the
statement order of `startLnd`'s long-running path, `cmd.Wait()` (which
blocks until the child exits) is executed before the `return`, after the
drain goroutine was spawned, and no join of the drain goroutine occurs at
all. -/
theorem c2_startLnd_wait_precedes_return :
    List.indexOf StartEvent.cmdWait startLndLongRunEvents <
      List.indexOf StartEvent.ret startLndLongRunEvents ∧
    List.indexOf StartEvent.spawnDrainGoroutine startLndLongRunEvents <
      List.indexOf StartEvent.cmdWait startLndLongRunEvents ∧
    StartEvent.drainJoined ∉ startLndLongRunEvents := by
  decide

/-- Claim C3: every line matched by `lndLogRegex` produces exactly one sink
record, its severity is the one given by the fixed case-sensitive table
TRC→Trace, DBG→Debug, INF→Info, WRN→Warn, ERR→Error, CRT→Fatal, and the
subsystem and message fields are the captured substrings verbatim. -/
theorem c3_matched_line_severity_table {line lvl sub txt : String}
    (h : lndLogMatch line = some (lvl, sub, txt)) :
    ∃ sev, specLevelTable lvl = some sev ∧
      (forwardLine line).1 = [⟨sev, some sub, txt⟩] := by
  have hmem := lndLogMatch_level_mem h
  fin_cases hmem <;>
    exact ⟨_, rfl, by simp [forwardLine, h]⟩

/-- Witness for C3: concrete lines for each of the six level codes. -/
theorem c3_witness :
    (∃ sev, specLevelTable "TRC" = some sev ∧
      (forwardLine "2009-01-03 18:15:05.001 [TRC] RPCS: a").1 =
        [⟨sev, some "RPCS", "a"⟩]) ∧
    (∃ sev, specLevelTable "DBG" = some sev ∧
      (forwardLine "2009-01-03 18:15:05.001 [DBG] RPCS: b").1 =
        [⟨sev, some "RPCS", "b"⟩]) ∧
    (∃ sev, specLevelTable "INF" = some sev ∧
      (forwardLine "2009-01-03 18:15:05.001 [INF] RPCS: started").1 =
        [⟨sev, some "RPCS", "started"⟩]) ∧
    (∃ sev, specLevelTable "WRN" = some sev ∧
      (forwardLine "2009-01-03 18:15:05.001 [WRN] RPCS: c").1 =
        [⟨sev, some "RPCS", "c"⟩]) ∧
    (∃ sev, specLevelTable "ERR" = some sev ∧
      (forwardLine "2009-01-03 18:15:05.001 [ERR] RPCS: d").1 =
        [⟨sev, some "RPCS", "d"⟩]) ∧
    (∃ sev, specLevelTable "CRT" = some sev ∧
      (forwardLine "2009-01-03 18:15:05.001 [CRT] SRVR: boom").1 =
        [⟨sev, some "SRVR", "boom"⟩]) :=
  ⟨c3_matched_line_severity_table (by rfl),
   c3_matched_line_severity_table (by rfl),
   c3_matched_line_severity_table (by rfl),
   c3_matched_line_severity_table (by rfl),
   c3_matched_line_severity_table (by rfl),
   c3_matched_line_severity_table (by rfl)⟩

/-- Claim C4: a line that does not match the grammar produces no record and
no error (the iteration's sink output is empty and the process is not
terminated), and the drain loop proceeds to the next line unchanged. -/
theorem c4_unmatched_line_dropped {line : String} (h : lndLogMatch line = none)
    (fired : Nat → Bool) (i : Nat) (rest : List String) (hf : fired i = false) :
    forwardLine line = ([], false) ∧
    parseLndLogRun fired i (line :: rest) = parseLndLogRun fired (i + 1) rest := by
  have hfw : forwardLine line = ([], false) := by simp [forwardLine, h]
  exact ⟨hfw, by simp [parseLndLogRun, hf, hfw]⟩

/-- Witness for C4: the empty string, a line with a missing bracket, a
lowercase level code, and a truncated line (no text after the colon). -/
theorem c4_witness :
    (forwardLine "" = ([], false) ∧
      parseLndLogRun (fun _ => false) 0 ["", "n"] =
        parseLndLogRun (fun _ => false) 1 ["n"]) ∧
    (forwardLine "2009-01-03 18:15:05.001 INF] RPCS: started" = ([], false) ∧
      parseLndLogRun (fun _ => false) 0
          ["2009-01-03 18:15:05.001 INF] RPCS: started", "n"] =
        parseLndLogRun (fun _ => false) 1 ["n"]) ∧
    (forwardLine "2009-01-03 18:15:05.001 [inf] RPCS: started" = ([], false) ∧
      parseLndLogRun (fun _ => false) 0
          ["2009-01-03 18:15:05.001 [inf] RPCS: started", "n"] =
        parseLndLogRun (fun _ => false) 1 ["n"]) ∧
    (forwardLine "2009-01-03 18:15:05.001 [INF] RPCS:" = ([], false) ∧
      parseLndLogRun (fun _ => false) 0
          ["2009-01-03 18:15:05.001 [INF] RPCS:", "n"] =
        parseLndLogRun (fun _ => false) 1 ["n"]) :=
  ⟨c4_unmatched_line_dropped (by rfl) (fun _ => false) 0 ["n"] rfl,
   c4_unmatched_line_dropped (by rfl) (fun _ => false) 0 ["n"] rfl,
   c4_unmatched_line_dropped (by rfl) (fun _ => false) 0 ["n"] rfl,
   c4_unmatched_line_dropped (by rfl) (fun _ => false) 0 ["n"] rfl⟩

/-- Claim C5: with `lnd` on the path and no process-management failure, the
version-query branch echoes exactly the child's first output line, performs
exactly one spawn, never starts the drain loop, returns the sentinel
`ErrLndVersion` (distinct from `ErrLndNotFound` and from every
operating-system error), and `core.Main` then returns nil so the process
exits with status 0. -/
theorem c5_version_query (env : LndEnv) (l : String) (rest : List String)
    (h1 : env.lndOnPath = true) (h2 : env.versionPipeErr = none)
    (h3 : env.versionStartErr = none) (h4 : env.versionWaitErr = none)
    (h5 : env.versionChildOut = l :: rest) :
    startLnd true env = ⟨[l], 1, false, some LndErr.versionDone⟩ ∧
    (LndErr.versionDone ≠ LndErr.notFound ∧
      ∀ s, LndErr.versionDone ≠ LndErr.os s) ∧
    mainResult true env = none ∧ processExitCode true env = 0 := by
  have hs : startLnd true env = ⟨[l], 1, false, some LndErr.versionDone⟩ := by
    simp [startLnd, h1, h2, h3, h4, h5]
  refine ⟨hs, ⟨by simp, fun s => by simp⟩, ?_, ?_⟩ <;>
    simp [mainResult, processExitCode, hs]

/-- Witness for C5: a healthy version query whose child prints one line. -/
theorem c5_witness :
    startLnd true ⟨true, none, none, none, ["lnd version 0.14.1-beta"],
        none, none, none, false⟩ =
      ⟨["lnd version 0.14.1-beta"], 1, false, some LndErr.versionDone⟩ ∧
    mainResult true ⟨true, none, none, none, ["lnd version 0.14.1-beta"],
        none, none, none, false⟩ = none ∧
    processExitCode true ⟨true, none, none, none, ["lnd version 0.14.1-beta"],
        none, none, none, false⟩ = 0 := by
  have h := c5_version_query
    ⟨true, none, none, none, ["lnd version 0.14.1-beta"], none, none, none, false⟩
    "lnd version 0.14.1-beta" [] rfl rfl rfl rfl rfl
  exact ⟨h.1, h.2.2.1, h.2.2.2⟩

/-- Counterexample to claim C6: in `c6Env` the child's exit follows an
explicit shutdown request (`shutdownRequestedBeforeExit = true`), yet
`startLnd` propagates the wait error and the run ends with exit status 1 —
the exit is reported as a failure. -/
theorem c6_counterexample :
    c6Env.shutdownRequestedBeforeExit = true ∧
    (startLnd false c6Env).err = some (LndErr.os "exit status 1") ∧
    processExitCode false c6Env = 1 := by
  decide

/-- Claim C6 as amended: `startLnd` propagates any non-nil `cmd.Wait()`
error as a fatal failure regardless of whether an explicit shutdown request
preceded the child's exit, and treats a zero exit as non-failure, again
regardless of the shutdown state. -/
theorem c6_wait_error_propagated_unconditionally (env : LndEnv) (b : Bool)
    (h1 : env.lndOnPath = true) (h2 : env.runPipeErr = none)
    (h3 : env.runStartErr = none) :
    (∀ e, env.runWaitErr = some e →
      (startLnd false { env with shutdownRequestedBeforeExit := b }).err =
        some (LndErr.os e) ∧
      processExitCode false { env with shutdownRequestedBeforeExit := b } = 1) ∧
    (env.runWaitErr = none →
      (startLnd false { env with shutdownRequestedBeforeExit := b }).err = none ∧
      processExitCode false { env with shutdownRequestedBeforeExit := b } = 0) := by
  constructor
  · intro e he
    have hs : startLnd false { env with shutdownRequestedBeforeExit := b } =
        ⟨[], 1, true, some (LndErr.os e)⟩ := by
      simp [startLnd, h1, h2, h3, he]
    exact ⟨by simp [hs], by simp [processExitCode, mainResult, hs]⟩
  · intro he
    have hs : startLnd false { env with shutdownRequestedBeforeExit := b } =
        ⟨[], 1, true, none⟩ := by
      simp [startLnd, h1, h2, h3, he]
    exact ⟨by simp [hs], by simp [processExitCode, mainResult, hs]⟩

/-- Witness for the amended C6: the environment of the counterexample. -/
theorem c6_witness :
    (startLnd false { c6Env with shutdownRequestedBeforeExit := true }).err =
      some (LndErr.os "exit status 1") ∧
    processExitCode false { c6Env with shutdownRequestedBeforeExit := true } = 1 :=
  (c6_wait_error_propagated_unconditionally c6Env true rfl rfl rfl).1
    "exit status 1" rfl

/-- Claim C7: when `exec.LookPath("lnd")` fails, `startLnd` returns
`ErrLndNotFound` with zero spawn attempts and without launching the drain
loop, and `core.Main` surfaces the error so the process exits non-zero. -/
theorem c7_not_found_before_spawn (lndShowVersion : Bool) (env : LndEnv)
    (h : env.lndOnPath = false) :
    startLnd lndShowVersion env = ⟨[], 0, false, some LndErr.notFound⟩ ∧
    mainResult lndShowVersion env = some LndErr.notFound ∧
    processExitCode lndShowVersion env = 1 := by
  have hs : startLnd lndShowVersion env = ⟨[], 0, false, some LndErr.notFound⟩ := by
    simp [startLnd, h]
  exact ⟨hs, by simp [mainResult, hs], by simp [processExitCode, mainResult, hs]⟩

/-- Witness for C7: `lnd` absent from the search path. -/
theorem c7_witness :
    startLnd false ⟨false, none, none, none, [], none, none, none, false⟩ =
      ⟨[], 0, false, some LndErr.notFound⟩ ∧
    mainResult false ⟨false, none, none, none, [], none, none, none, false⟩ =
      some LndErr.notFound ∧
    processExitCode false ⟨false, none, none, none, [], none, none, none, false⟩ = 1 :=
  c7_not_found_before_spawn false
    ⟨false, none, none, none, [], none, none, none, false⟩ rfl

/-- Claim C8: if the shutdown notification has fired by iteration `k` (and,
being a closed channel, stays fired), the drain loop forwards no record
from any line beyond the first `k` and performs at most `k + 1` further
`scan.Scan()` calls from iteration `i` on at most `(k - i) + 1`. -/
theorem c8_shutdown_bounds_drain (fired : Nat → Bool)
    (mono : ∀ i j, i ≤ j → fired i = true → fired j = true)
    (k : Nat) (hk : fired k = true) (lines : List String) (i : Nat) :
    parseLndLogRun fired i lines = parseLndLogRun fired i (lines.take (k - i)) ∧
    drainReads fired i lines ≤ (k - i) + 1 := by
  induction lines generalizing i with
  | nil => simp [parseLndLogRun, drainReads]
  | cons line rest ih =>
    cases hf : fired i with
    | true =>
      constructor
      · cases hki : k - i with
        | zero => simp [parseLndLogRun, hf]
        | succ m => simp [parseLndLogRun, hf, List.take_succ_cons]
      · simp only [drainReads, hf, if_true]
        omega
    | false =>
      have hlt : i < k := by
        rcases Nat.lt_or_ge i k with h1 | h1
        · exact h1
        · rw [mono k i h1 hk] at hf
          exact Bool.noConfusion hf
      have hki : k - i = (k - (i + 1)) + 1 := by omega
      obtain ⟨ih1, ih2⟩ := ih (i + 1)
      rw [hki, List.take_succ_cons]
      by_cases hh : (forwardLine line).2 = true
      · constructor
        · simp [parseLndLogRun, hf, hh]
        · simp [drainReads, hf, hh]
      · rw [Bool.not_eq_true] at hh
        constructor
        · simp only [parseLndLogRun, hf, hh, Bool.false_eq_true, if_false]
          rw [ih1]
        · simp only [drainReads, hf, hh, Bool.false_eq_true, if_false]
          omega

/-- Witness for C8: a channel that fires at iteration 1 confines a
three-line input to its first line and at most two reads. -/
theorem c8_witness :
    parseLndLogRun (fun j => decide (1 ≤ j)) 0
        ["2009-01-03 18:15:05.001 [INF] RPCS: a",
         "2009-01-03 18:15:05.001 [INF] RPCS: b", "n"] =
      parseLndLogRun (fun j => decide (1 ≤ j)) 0
        (["2009-01-03 18:15:05.001 [INF] RPCS: a",
          "2009-01-03 18:15:05.001 [INF] RPCS: b", "n"].take (1 - 0)) ∧
    drainReads (fun j => decide (1 ≤ j)) 0
        ["2009-01-03 18:15:05.001 [INF] RPCS: a",
         "2009-01-03 18:15:05.001 [INF] RPCS: b", "n"] ≤ (1 - 0) + 1 :=
  c8_shutdown_bounds_drain (fun j => decide (1 ≤ j))
    (by
      intro i j hij hi
      simp only [decide_eq_true_eq] at hi ⊢
      omega)
    1 (by decide)
    ["2009-01-03 18:15:05.001 [INF] RPCS: a",
     "2009-01-03 18:15:05.001 [INF] RPCS: b", "n"] 0

/-- Claim C9: a matched line with level code CRT is forwarded through the
sink's Fatal level, and zerolog's `Fatal` terminates the whole process after
writing, so the drain run ends with that single record and no later line is
ever processed; a matched line with any of the other five codes forwards
exactly one record and the loop continues with the remaining lines. -/
theorem c9_crt_terminates_process {line lvl sub txt : String}
    (hm : lndLogMatch line = some (lvl, sub, txt))
    (fired : Nat → Bool) (i : Nat) (rest : List String) (hf : fired i = false) :
    (lvl = "CRT" →
      parseLndLogRun fired i (line :: rest) = [⟨Severity.fatal, some sub, txt⟩]) ∧
    (lvl ≠ "CRT" → ∃ ev, forwardLine line = ([ev], false) ∧
      parseLndLogRun fired i (line :: rest) =
        ev :: parseLndLogRun fired (i + 1) rest) := by
  have hmem := lndLogMatch_level_mem hm
  constructor
  · intro hcrt
    subst hcrt
    simp [parseLndLogRun, hf, forwardLine, hm]
  · intro hne
    have hstep : ∀ ev, forwardLine line = ([ev], false) →
        parseLndLogRun fired i (line :: rest) =
          ev :: parseLndLogRun fired (i + 1) rest := by
      intro ev hev
      simp [parseLndLogRun, hf, hev]
    simp only [lndLevelCodes, List.mem_cons, List.not_mem_nil, or_false] at hmem
    rcases hmem with h | h | h | h | h | h <;> subst h
    · exact ⟨⟨Severity.info, some sub, txt⟩, by simp [forwardLine, hm],
        hstep _ (by simp [forwardLine, hm])⟩
    · exact ⟨⟨Severity.trace, some sub, txt⟩, by simp [forwardLine, hm],
        hstep _ (by simp [forwardLine, hm])⟩
    · exact ⟨⟨Severity.debug, some sub, txt⟩, by simp [forwardLine, hm],
        hstep _ (by simp [forwardLine, hm])⟩
    · exact ⟨⟨Severity.error, some sub, txt⟩, by simp [forwardLine, hm],
        hstep _ (by simp [forwardLine, hm])⟩
    · exact ⟨⟨Severity.warn, some sub, txt⟩, by simp [forwardLine, hm],
        hstep _ (by simp [forwardLine, hm])⟩
    · exact absurd rfl hne

/-- Witness for C9: one CRT line followed by an INF line; the INF line is
never processed. -/
theorem c9_witness :
    parseLndLogRun (fun _ => false) 0
        ["2009-01-03 18:15:05.001 [CRT] SRVR: boom",
         "2009-01-03 18:15:05.001 [INF] RPCS: next"] =
      [⟨Severity.fatal, some "SRVR", "boom"⟩] :=
  (c9_crt_terminates_process (by rfl) (fun _ => false) 0
    ["2009-01-03 18:15:05.001 [INF] RPCS: next"] rfl).1 rfl

/-- Claim C10: for every input line, a non-empty regex match captures one of
the six level codes handled by the `switch`, so the `default` branch's
"Unkown LND log level" error record is never produced. -/
theorem c10_default_branch_unreachable (line : String) :
    (∀ lvl sub txt, lndLogMatch line = some (lvl, sub, txt) →
      lvl ∈ lndLevelCodes) ∧
    (∀ s, unknownLevelEvent s ∉ (forwardLine line).1) := by
  refine ⟨fun lvl sub txt h => lndLogMatch_level_mem h, fun s => ?_⟩
  rcases h : lndLogMatch line with _ | ⟨lvl, sub, txt⟩
  · simp [forwardLine, h]
  · have hmem := lndLogMatch_level_mem h
    fin_cases hmem <;> simp [forwardLine, h, unknownLevelEvent]

/-- Witness for C10: the captured code of a concrete matching line is in the
table and no unknown-level record appears in its output. -/
theorem c10_witness :
    "INF" ∈ lndLevelCodes ∧
    unknownLevelEvent "XYZ" ∉
      (forwardLine "2009-01-03 18:15:05.001 [INF] RPCS: started").1 :=
  ⟨(c10_default_branch_unreachable "2009-01-03 18:15:05.001 [INF] RPCS: started").1
      "INF" "RPCS" "started" (by rfl),
   (c10_default_branch_unreachable "2009-01-03 18:15:05.001 [INF] RPCS: started").2
      "XYZ"⟩

end Conduit
